import Mathlib

/-!
Verification development for `src/modules/nodeSync.js` of foicoin/foi-wallet.

The module is a single `NodeSync` class (an `EventEmitter`) holding mutable
fields `_syncPromise`, `_syncInProgress`, `_onSyncDone`, `_onSyncError`, a
skip IPC listener, and a polling loop `_sync` driven by `_.delay`.  We embed
it shallowly:

* `MState` records the truthiness of each mutable field (`false` when the JS
  value is `false`/`undefined`, `true` when it holds the promise / flag /
  callback function), plus `pendingTicks`, the number of `_.delay` callbacks
  scheduled by `_sync` and not yet fired (scheduler state of the environment).
* Pure functions transcribe each method: `start` (the synchronous part of
  `start()`, lines 27-56), `startChain` (the `.then/.catch/.finally` chain on
  the session promise, lines 58-70), `stop` (lines 78-92), `clearState`
  (lines 94-98), `fireTick` (top of the `_.delay` callback, lines 101-108),
  `syncContinuation` (classification of the RPC responses, lines 110-175),
  `runTickAction` (the effect of invoking the stored callback slots against
  the current state), and `onNodeStateChanged` (lines 179-197).
* Asynchrony is modelled by splitting a poll tick into the fire step and the
  continuation step, so that `stop()`/`skip()` can be interleaved between the
  issuing of an RPC call and the run of its `.then` continuation, exactly the
  interleavings the spec's concurrency section talks about.

The spec's event name `progress` is the code's `'nodeSyncing'` event; the
spec's `finished`/`error`/`stopped`/`starting` are the code's events of the
same names.
-/

namespace NodeSync

/-- Poll interval in milliseconds: `SYNC_CHECK_INTERVAL_MS = 2000` (line 15). -/
def SYNC_CHECK_INTERVAL_MS : Nat := 2000

/-- The `result` field of the `eth_syncing` RPC response (`ret.result`,
line 113), as discriminated by `_sync`: falsy (`null`), an object with a
truthy `error` field carrying a numeric `code`, or a truthy sync-progress
object without an `error` field (opaque data, indexed by a `Nat`). -/
inductive SyncResult
  | nullResult
  | errorPayload (code : Int)
  | syncData (d : Nat)
deriving DecidableEq, Repr

/-- A block as returned by `eth_getBlockByNumber` (`ret2.result`, line 141):
the fields `_sync` reads are `number` and `timestamp` (seconds). -/
structure Block where
  number : Nat
  timestamp : Int
deriving DecidableEq, Repr

/-- The `result` field of the `eth_getBlockByNumber` response: falsy
(no block yet, line 144) or a block object. -/
inductive BlockResult
  | nullResult
  | block (b : Block)
deriving DecidableEq, Repr

/-- Settlement of a transport-level RPC call (`ethereumNode.send`): the
returned promise either fulfills with a response carrying a `result` field,
or rejects with a transport error (opaque, indexed by a `Nat`). -/
inductive Rpc (α : Type)
  | ok (v : α)
  | fail (e : Nat)
deriving DecidableEq, Repr

/-- Errors flowing through the module: the `NotConnected` throw of line 36,
the `Unexpected error` throw of line 127 (non `-32601` error payload), a
transport-level rejection, and the `TypeError` raised when a cleared
(`false`) callback slot is invoked as a function. -/
inductive Err
  | notConnected
  | unexpectedRpc (code : Int)
  | transport (e : Nat)
  | typeErr
deriving DecidableEq, Repr

/-- Events emitted by the `NodeSync` `EventEmitter`.  `nodeSyncing` is the
spec's `progress` event; its payload is the JS value passed to `emit`,
which in `_sync` is always the `result` variable of the `eth_syncing`
response (lines 130 and 158). -/
inductive Event
  | starting
  | nodeSyncing (payload : SyncResult)
  | finished
  | error (e : Err)
  | stopped
deriving DecidableEq, Repr

/-- Mutable state of the `NodeSync` instance plus scheduler state.
Each `Bool` field is the truthiness of the JS field of the same name
(`false` models both `false` and `undefined`); `skipListener` records
whether the `backendAction_skipSync` IPC listener is registered;
`pendingTicks` counts `_.delay` callbacks scheduled by `_sync` and not
yet fired. -/
structure MState where
  syncPromise : Bool
  syncInProgress : Bool
  onSyncDone : Bool
  onSyncError : Bool
  skipListener : Bool
  pendingTicks : Nat
deriving DecidableEq, Repr

/-- State of a freshly constructed `NodeSync`: every field `undefined`
(falsy), no listener, nothing scheduled. -/
def initState : MState :=
  { syncPromise := false, syncInProgress := false, onSyncDone := false,
    onSyncError := false, skipListener := false, pendingTicks := 0 }

/-- Transcription of `_clearState()` (lines 94-98): removes the skip IPC
listener and sets `_syncInProgress`, `_syncPromise`, `_onSyncDone`,
`_onSyncError` to `false`.  Scheduled timers are not touched. -/
def clearState (st : MState) : MState :=
  { st with
    skipListener := false
    syncInProgress := false
    syncPromise := false
    onSyncDone := false
    onSyncError := false }

/-- What `start()` returned to its caller. -/
inductive StartResult
  | existingPromise
  | notConnectedFailure
  | sessionStarted
deriving DecidableEq, Repr

/-- Output of the synchronous part of `start()`. -/
structure StartOut where
  state : MState
  events : List Event
  result : StartResult
deriving DecidableEq, Repr

/-- Transcription of the synchronous part of `start()` (lines 27-56, 72).
If `_syncPromise` is truthy, `start` logs a warning and returns
`Q.resolve(this._syncPromise)` (the existing session promise), touching
nothing (line 28-32).  Otherwise the `Q.try` body runs synchronously: when
`ethereumNode.isIpcConnected` is falsy it throws `NotConnected`, so no
session fields are set and the thrown error settles the chain (`startChain`
applied to `Outcome.rejected Err.notConnected`); when connected, the inner
promise executor sets `_syncInProgress` and both callback slots, emits
`starting`, registers the skip listener and calls `_sync()`, which schedules
the first tick.  In both non-guard branches `this._syncPromise` is assigned
the chain, so `syncPromise` becomes `true`. -/
def start (connected : Bool) (st : MState) : StartOut :=
  if st.syncPromise then
    { state := st, events := [], result := .existingPromise }
  else if ¬connected then
    { state := { st with syncPromise := true }, events := [],
      result := .notConnectedFailure }
  else
    { state :=
        { st with
          syncPromise := true
          syncInProgress := true
          onSyncDone := true
          onSyncError := true
          skipListener := true
          pendingTicks := st.pendingTicks + 1 },
      events := [Event.starting], result := .sessionStarted }

/-- Settlement of a promise in the chain (the fulfillment values are all
`undefined` and never inspected, so only the rejection reason is carried). -/
inductive Outcome
  | fulfilled
  | rejected (e : Err)
deriving DecidableEq, Repr

/-- Output of running `start()`'s `.then/.catch/.finally` chain. -/
structure ChainOut where
  state : MState
  events : List Event
  outcome : Outcome
deriving DecidableEq, Repr

/-- Transcription of the chain hung on the `Q.try` of `start()`
(lines 58-70), given the settlement `inner` of the `Q.try` body (rejected
`notConnected` when the line 36 throw fired, otherwise the settlement of
the inner session promise):
`.then(() => this.emit('finished'))` emits `finished` on fulfillment and
passes rejections through; `.catch(err => this.emit('error', err))` emits
`error` on rejection and returns normally, so the chain fulfills;
`.finally(() => this._clearState())` always runs `_clearState`. -/
def startChain (st : MState) (inner : Outcome) : ChainOut :=
  let afterThen : List Event × Outcome :=
    match inner with
    | .fulfilled => ([Event.finished], .fulfilled)
    | .rejected e => ([], .rejected e)
  let afterCatch : List Event × Outcome :=
    match afterThen.2 with
    | .fulfilled => afterThen
    | .rejected e => (afterThen.1 ++ [Event.error e], .fulfilled)
  { state := clearState st, events := afterCatch.1, outcome := afterCatch.2 }

/-- Output of `stop()`: the state after its synchronous part, the events it
emits, and `resolveDelay`, the delay in milliseconds after which those
events are emitted and the returned promise resolves. -/
structure StopOut where
  state : MState
  events : List Event
  resolveDelay : Nat
deriving DecidableEq, Repr

/-- Transcription of `stop()` (lines 78-92).  When `_syncInProgress` is
falsy it only logs and the `Q.try` promise fulfills at once (delay `0`,
no event).  When truthy it runs `_clearState()` synchronously, then
`Q.delay(SYNC_CHECK_INTERVAL_MS).then(() => this.emit('stopped'))`:
`stopped` is emitted once, `SYNC_CHECK_INTERVAL_MS` milliseconds later,
and the returned promise resolves then. -/
def stop (st : MState) : StopOut :=
  if ¬st.syncInProgress then
    { state := st, events := [], resolveDelay := 0 }
  else
    { state := clearState st, events := [Event.stopped],
      resolveDelay := SYNC_CHECK_INTERVAL_MS }

/-- What the `_.delay` callback of `_sync` (lines 101-108) did when it
fired: exit silently because `_syncInProgress` is falsy, or issue the
`eth_syncing` RPC call whose continuation runs later. -/
inductive TickFire
  | silentExit
  | rpcIssued
deriving DecidableEq, Repr

/-- Transcription of the top of the `_.delay` callback (lines 102-108):
the callback fires (consuming its scheduled timer), checks
`this._syncInProgress`, and either returns silently or proceeds to
`ethereumNode.send('eth_syncing', [])`. -/
def fireTick (st : MState) : MState × TickFire :=
  let st' := { st with pendingTicks := st.pendingTicks - 1 }
  if st'.syncInProgress then (st', .rpcIssued) else (st', .silentExit)

/-- Action the `_sync` continuation chain performs after classifying the
RPC responses: invoke `this._onSyncDone()`, invoke `this._onSyncError(err)`
(from the `.catch` of line 171), or call `this._sync()` again. -/
inductive TickAction
  | callSyncDone
  | callSyncError (e : Err)
  | scheduleNext
deriving DecidableEq, Repr

/-- Transcription of the `.then`/`.catch` continuation of the `eth_syncing`
call (lines 110-175), as a pure classification of the responses.  A
transport rejection of either call reaches the `.catch` (line 171) and
becomes `callSyncError (transport e)`.  A truthy `result` with a truthy
`error`: code `-32601` means `callSyncDone` (line 121-124), any other code
throws `Unexpected error` (line 127) which the `.catch` turns into
`callSyncError (unexpectedRpc code)`.  A truthy `result` without `error`
emits `nodeSyncing result` and reschedules (lines 130-132).  A falsy
`result` issues `eth_getBlockByNumber`: no block reschedules (line 145);
with a block, `diff = now - timestamp`; `diff > 60` emits
`nodeSyncing result` — the already-consumed falsy sync-status variable,
line 158 — and reschedules, else `callSyncDone` (line 167). -/
def syncContinuation (syncResp : Rpc SyncResult) (blockResp : Rpc BlockResult)
    (now : Int) : List Event × TickAction :=
  match syncResp with
  | .fail e => ([], .callSyncError (.transport e))
  | .ok result =>
    match result with
    | .errorPayload code =>
      if code = -32601 then ([], .callSyncDone)
      else ([], .callSyncError (.unexpectedRpc code))
    | .syncData d => ([Event.nodeSyncing (.syncData d)], .scheduleNext)
    | .nullResult =>
      match blockResp with
      | .fail e => ([], .callSyncError (.transport e))
      | .ok .nullResult => ([], .scheduleNext)
      | .ok (.block b) =>
        if now - b.timestamp > 60 then
          ([Event.nodeSyncing SyncResult.nullResult], .scheduleNext)
        else ([], .callSyncDone)

/-- How a tick's continuation ended, given the state current when it ran. -/
inductive TickResult
  | sessionResolved
  | sessionRejected (e : Err)
  | unhandledTypeError
  | rescheduled
deriving DecidableEq, Repr

/-- Effect of a `TickAction` on the current state.  `scheduleNext` is
`this._sync()`: one more timer.  `callSyncDone` reads the current
`this._onSyncDone`: a stored function resolves the session promise; the
cleared value `false` is not callable, the `TypeError` is caught by the
`.catch` of line 171, which invokes `this._onSyncError` — itself `false`
in that case, so a second `TypeError` escapes as an unhandled rejection.
`callSyncError` likewise reads the current `this._onSyncError`. -/
def runTickAction (st : MState) : TickAction → MState × TickResult
  | .scheduleNext =>
    ({ st with pendingTicks := st.pendingTicks + 1 }, .rescheduled)
  | .callSyncDone =>
    if st.onSyncDone then (st, .sessionResolved)
    else if st.onSyncError then (st, .sessionRejected .typeErr)
    else (st, .unhandledTypeError)
  | .callSyncError e =>
    if st.onSyncError then (st, .sessionRejected e)
    else (st, .unhandledTypeError)

/-- Output of running a tick continuation. -/
structure ContOut where
  state : MState
  events : List Event
  result : TickResult
deriving DecidableEq, Repr

/-- Run of the in-flight RPC continuation (lines 110-175) against the state
current when the responses arrive — which, the continuation performing no
re-check of `_syncInProgress`, may differ from the state when the call was
issued. -/
def runContinuation (st : MState) (syncResp : Rpc SyncResult)
    (blockResp : Rpc BlockResult) (now : Int) : ContOut :=
  let c := syncContinuation syncResp blockResp now
  let r := runTickAction st c.2
  { state := r.1, events := c.1, result := r.2 }

/-- Output of a full poll tick. -/
structure TickOut where
  state : MState
  events : List Event
  result : Option TickResult
deriving DecidableEq, Repr

/-- A full poll tick with no interleaving: the `_.delay` callback fires
and, when the session is in progress, its RPC continuation runs against
the unchanged state.  `result = none` is the silent exit of line 102-106. -/
def tick (st : MState) (syncResp : Rpc SyncResult)
    (blockResp : Rpc BlockResult) (now : Int) : TickOut :=
  let f := fireTick st
  match f.2 with
  | .silentExit => { state := f.1, events := [], result := none }
  | .rpcIssued =>
    let c := runContinuation f.1 syncResp blockResp now
    { state := c.state, events := c.events, result := some c.result }

/-- Transcription of the `backendAction_skipSync` IPC handler
(lines 48-53): removes itself and invokes `this._onSyncDone()` (resolving
the session, whose chain then emits `finished` and clears state). -/
def skipHandler (st : MState) : MState × TickResult :=
  let st' := { st with skipListener := false }
  if st'.onSyncDone then (st', .sessionResolved)
  else (st', .unhandledTypeError)

/-- The node lifecycle states `NodeSync` can receive (`ethereumNode.STATES`
per spec section 3: Starting, Connected, Stopping, Stopped, plus an error
state); `_onNodeStateChanged` only distinguishes `connected` and
`stopping`. -/
inductive NodeState
  | starting
  | connected
  | stopping
  | stopped
  | errored
deriving DecidableEq, Repr

/-- Reaction of `_onNodeStateChanged`: `stopOnly` is `this.stop()` fire and
forget; `stopThenStart` is `this.stop().then(() => this.start())`, the
`start` call registered as the continuation of `stop`'s promise; `ignore`
is the fall-through of the `switch` with no `default` case. -/
inductive LifecycleReaction
  | stopOnly
  | stopThenStart
  | ignore
deriving DecidableEq, Repr

/-- Transcription of the `switch` of `_onNodeStateChanged` (lines 179-197):
`STOPPING` calls `stop()` without awaiting it, `CONNECTED` calls `stop()`
and chains `start()` on its resolution, every other state falls through. -/
def onNodeStateChanged : NodeState → LifecycleReaction
  | .stopping => .stopOnly
  | .connected => .stopThenStart
  | _ => .ignore

/-- Output of the `CONNECTED` branch: `startTime` is the number of
milliseconds after the transition at which `start()` is invoked — the
resolution delay of `stop()`'s promise, since `start()` runs in its
`.then`. -/
structure ReconnectOut where
  afterStop : MState
  stopEvents : List Event
  startTime : Nat
  startOut : StartOut
deriving DecidableEq, Repr

/-- The `CONNECTED` branch `this.stop().then(() => this.start())`
(lines 191-194): `stop` runs first, and `start` runs on the state it left,
at the time its promise resolves. -/
def connectedReaction (connected : Bool) (st : MState) : ReconnectOut :=
  let s := stop st
  { afterStop := s.state, stopEvents := s.events, startTime := s.resolveDelay,
    startOut := start connected s.state }

/-- State effect of a lifecycle reaction (the events and timing are read
off `stop`/`connectedReaction` directly): `ignore` touches nothing. -/
def applyReaction (st : MState) (connected : Bool) :
    LifecycleReaction → MState
  | .ignore => st
  | .stopOnly => (stop st).state
  | .stopThenStart => (connectedReaction connected st).startOut.state

/-- The state right after a successful `start()` on a fresh instance:
session promise and flags set, skip listener registered, first tick
scheduled. -/
def liveState : MState := (start true initState).state

/-- Claim C1: calling `start()` while a session is already in progress
(`_syncPromise` truthy) hits the guard of lines 28-32: it logs a warning
and returns the existing session promise, leaving the state untouched —
no new session fields are written, no event is emitted, and no second
polling tick is scheduled, so at most one `SyncSession` is active at a
time. -/
theorem c1_start_idempotent (c : Bool) (st : MState)
    (h : st.syncPromise = true) :
    start c st = { state := st, events := [], result := .existingPromise } := by
  simp [start, h]

/-- Witness for C1 at the state reached by a successful `start()`. -/
theorem c1_start_idempotent_witness :
    liveState.syncPromise = true ∧
      start true liveState
        = { state := liveState, events := [], result := .existingPromise } :=
  ⟨by decide, c1_start_idempotent true liveState (by decide)⟩

/-- Counterexample to claim C2 as stated: after `stop()` has ended the
session, the continuation of an `eth_syncing` call already in flight is
not a no-op — on a syncing-progress result it still emits the
`nodeSyncing` (progress) event, because the continuation of lines 112-175
never re-checks `_syncInProgress`. -/
theorem c2_inflight_progress_cex :
    (runContinuation (stop liveState).state
        (.ok (.syncData 7)) (.ok .nullResult) 0).events
      = [Event.nodeSyncing (.syncData 7)] := by decide

/-- Claim C2 (amended): once `stop()` or `skip()`-plus-cleanup has ended
the session (`_syncInProgress` and both callback slots cleared to
`false`), an already-scheduled poll tick observes the session is no longer
active and terminates silently with no event; but an RPC call already in
flight still runs its continuation: a syncing-progress result emits a
further `nodeSyncing` event and schedules another tick, and a result that
would resolve or reject the session instead invokes the cleared `false`
slots, producing an unhandled `TypeError` rather than touching the
session's resolve/reject. -/
theorem c2_cancellation_amended (st : MState) (h : st.syncInProgress = false)
    (hd : st.onSyncDone = false) (he : st.onSyncError = false)
    (d e : Nat) (br : Rpc BlockResult) (now : Int) :
    tick st (.ok (.syncData d)) br now
      = { state := { st with pendingTicks := st.pendingTicks - 1 },
          events := [], result := none }
  ∧ runContinuation st (.ok (.syncData d)) br now
      = { state := { st with pendingTicks := st.pendingTicks + 1 },
          events := [Event.nodeSyncing (.syncData d)], result := .rescheduled }
  ∧ runContinuation st (.ok (.errorPayload (-32601))) br now
      = { state := st, events := [], result := .unhandledTypeError }
  ∧ runContinuation st (.fail e) br now
      = { state := st, events := [], result := .unhandledTypeError } := by
  refine ⟨?_, ?_, ?_, ?_⟩ <;>
    simp [tick, fireTick, runContinuation, syncContinuation, runTickAction,
      h, hd, he]

/-- Witness for C2 (amended) at the state left by `stop()` on a live
session. -/
theorem c2_cancellation_amended_witness :
    (stop liveState).state.syncInProgress = false
  ∧ tick (stop liveState).state (.ok (.syncData 7)) (.ok .nullResult) 0
      = { state := { (stop liveState).state with pendingTicks := 0 },
          events := [], result := none } :=
  ⟨by decide,
   (c2_cancellation_amended (stop liveState).state (by decide) (by decide)
      (by decide) 7 0 (.ok .nullResult) 0).1⟩

/-- Counterexample to claim C3 as stated: when `start()` runs while the
node transport is not connected, the promise it returns does not fail —
the `NotConnected` throw happens inside the `Q.try`, the `.catch` of
line 61 handles it, and the returned promise fulfills. -/
theorem c3_not_connected_cex :
    (startChain (start false initState).state
        (Outcome.rejected Err.notConnected)).outcome = Outcome.fulfilled
  ∧ (startChain (start false initState).state
        (Outcome.rejected Err.notConnected)).outcome
      ≠ Outcome.rejected Err.notConnected := by decide

/-- Claim C3 (amended): if `start()` is called on an idle monitor while
the transport is not connected, the `NotConnected` error is thrown inside
the session promise chain: no polling session begins (`_syncInProgress`
stays as it was and no tick is scheduled), nothing is emitted
synchronously, and the chain then emits the error as an `error` event,
clears all session state, and fulfills — the caller of `start()` never
observes a rejection. -/
theorem c3_not_connected_amended (st : MState) (h : st.syncPromise = false) :
    (start false st).result = .notConnectedFailure
  ∧ (start false st).events = []
  ∧ (start false st).state.syncInProgress = st.syncInProgress
  ∧ (start false st).state.pendingTicks = st.pendingTicks
  ∧ startChain (start false st).state (Outcome.rejected Err.notConnected)
      = { state := clearState st,
          events := [Event.error Err.notConnected],
          outcome := Outcome.fulfilled } := by
  refine ⟨?_, ?_, ?_, ?_, ?_⟩ <;> simp [start, startChain, clearState, h]

/-- Witness for C3 (amended) on a fresh instance. -/
theorem c3_not_connected_amended_witness :
    (start false initState).result = .notConnectedFailure
  ∧ (start false initState).events = []
  ∧ (start false initState).state.syncInProgress = initState.syncInProgress
  ∧ (start false initState).state.pendingTicks = initState.pendingTicks
  ∧ startChain (start false initState).state
        (Outcome.rejected Err.notConnected)
      = { state := clearState initState,
          events := [Event.error Err.notConnected],
          outcome := Outcome.fulfilled } :=
  c3_not_connected_amended initState (by decide)

/-- Claim C4: on a falsy sync-status result the tick queries the latest
block: with no block it schedules the next tick; with a block whose age
`now - timestamp` exceeds 60 seconds it emits the `nodeSyncing` progress
event and schedules the next tick; with age at most 60 seconds it invokes
`_onSyncDone` (the session resolves `Finished`) and emits no progress
event for that tick. -/
theorem c4_no_status_block_age (now : Int) (b : Block) :
    tick liveState (.ok .nullResult) (.ok .nullResult) now
      = { state := liveState, events := [], result := some .rescheduled }
  ∧ (now - b.timestamp > 60 →
      tick liveState (.ok .nullResult) (.ok (.block b)) now
        = { state := liveState,
            events := [Event.nodeSyncing SyncResult.nullResult],
            result := some .rescheduled })
  ∧ (now - b.timestamp ≤ 60 →
      tick liveState (.ok .nullResult) (.ok (.block b)) now
        = { state := { liveState with pendingTicks := 0 }, events := [],
            result := some .sessionResolved }) := by
  refine ⟨?_, fun hage => ?_, fun hage => ?_⟩
  · simp [tick, fireTick, runContinuation, syncContinuation, runTickAction,
      liveState, start, initState]
  · simp [tick, fireTick, runContinuation, syncContinuation, runTickAction,
      liveState, start, initState, hage]
  · simp [tick, fireTick, runContinuation, syncContinuation, runTickAction,
      liveState, start, initState, not_lt.mpr hage]

/-- Witness for C4: a 100-second-old block keeps polling and emits
progress; a 10-second-old block resolves the session. -/
theorem c4_no_status_block_age_witness :
    tick liveState (.ok .nullResult) (.ok (.block ⟨1, 0⟩)) 100
      = { state := liveState,
          events := [Event.nodeSyncing SyncResult.nullResult],
          result := some .rescheduled }
  ∧ tick liveState (.ok .nullResult) (.ok (.block ⟨1, 0⟩)) 10
      = { state := { liveState with pendingTicks := 0 }, events := [],
          result := some .sessionResolved } :=
  ⟨(c4_no_status_block_age 100 ⟨1, 0⟩).2.1 (by decide),
   (c4_no_status_block_age 10 ⟨1, 0⟩).2.2 (by decide)⟩

/-- Claim C5: an error payload with code `-32601` on the first tick
resolves the session (`_onSyncDone`), schedules no further tick, and the
full event trace of such a session is exactly `starting` then `finished`. -/
theorem c5_method_unsupported_finishes :
    (tick liveState (.ok (.errorPayload (-32601))) (.ok .nullResult) 0).result
        = some TickResult.sessionResolved
  ∧ (tick liveState
        (.ok (.errorPayload (-32601))) (.ok .nullResult) 0).state.pendingTicks
        = 0
  ∧ (start true initState).events
      ++ (tick liveState (.ok (.errorPayload (-32601))) (.ok .nullResult) 0).events
      ++ (startChain
            (tick liveState
              (.ok (.errorPayload (-32601))) (.ok .nullResult) 0).state
            Outcome.fulfilled).events
      = [Event.starting, Event.finished] := by decide

/-- Claim C6: `stop()` on an idle monitor (no `_syncInProgress`) is a
no-op that resolves immediately without emitting `stopped`; on an active
session it clears the session state at once, waits a grace interval equal
to the 2000 ms poll interval, and then emits `stopped` exactly once. -/
theorem c6_stop_behavior (st : MState) :
    (st.syncInProgress = false →
      stop st = { state := st, events := [], resolveDelay := 0 })
  ∧ (st.syncInProgress = true →
      stop st = { state := clearState st, events := [Event.stopped],
                  resolveDelay := SYNC_CHECK_INTERVAL_MS }
        ∧ SYNC_CHECK_INTERVAL_MS = 2000
        ∧ (stop st).events.count Event.stopped = 1) := by
  refine ⟨fun h => ?_, fun h => ⟨?_, rfl, ?_⟩⟩ <;> simp [stop, h]

/-- Witness for C6: the idle case on a fresh instance and the active case
on a live session. -/
theorem c6_stop_behavior_witness :
    stop initState = { state := initState, events := [], resolveDelay := 0 }
  ∧ stop liveState
      = { state := clearState liveState, events := [Event.stopped],
          resolveDelay := SYNC_CHECK_INTERVAL_MS } :=
  ⟨(c6_stop_behavior initState).1 (by decide),
   ((c6_stop_behavior liveState).2 (by decide)).1⟩

/-- Claim C7: a sync-status error payload with any code other than
`-32601`, a transport failure of the `eth_syncing` call, and a transport
failure of the `eth_getBlockByNumber` call all reject the session with
the corresponding error (`_onSyncError`), with no event emitted by the
tick and no further tick scheduled; the rejection then surfaces through
the session promise chain as a single `error` event, after which the
chain fulfills and state is cleared. -/
theorem c7_rpc_errors_terminate (code : Int) (hc : code ≠ -32601) (e : Nat)
    (br : Rpc BlockResult) (now : Int) (err : Err) :
    tick liveState (.ok (.errorPayload code)) br now
      = { state := { liveState with pendingTicks := 0 }, events := [],
          result := some (.sessionRejected (.unexpectedRpc code)) }
  ∧ tick liveState (.fail e) br now
      = { state := { liveState with pendingTicks := 0 }, events := [],
          result := some (.sessionRejected (.transport e)) }
  ∧ tick liveState (.ok .nullResult) (.fail e) now
      = { state := { liveState with pendingTicks := 0 }, events := [],
          result := some (.sessionRejected (.transport e)) }
  ∧ startChain { liveState with pendingTicks := 0 } (Outcome.rejected err)
      = { state := clearState { liveState with pendingTicks := 0 },
          events := [Event.error err], outcome := Outcome.fulfilled } := by
  refine ⟨?_, ?_, ?_, ?_⟩ <;>
    simp [tick, fireTick, runContinuation, syncContinuation, runTickAction,
      startChain, liveState, start, initState, hc]

/-- Witness for C7 at error code `-1`. -/
theorem c7_rpc_errors_terminate_witness :
    tick liveState (.ok (.errorPayload (-1))) (.ok .nullResult) 0
      = { state := { liveState with pendingTicks := 0 }, events := [],
          result := some (.sessionRejected (.unexpectedRpc (-1))) } :=
  (c7_rpc_errors_terminate (-1) (by decide) 0 (.ok .nullResult) 0
    Err.notConnected).1

/-- Claim C8: the lifecycle handler reacts to `CONNECTED` with
`stop().then(() => start())` — `start()` runs only when `stop()`'s promise
resolves, which on an active session is after the full
`SYNC_CHECK_INTERVAL_MS` grace delay — reacts to `STOPPING` with a
fire-and-forget `stop()`, and leaves the monitor untouched on every other
lifecycle state. -/
theorem c8_lifecycle_reactions :
    onNodeStateChanged .connected = .stopThenStart
  ∧ onNodeStateChanged .stopping = .stopOnly
  ∧ (∀ s : NodeState, s ≠ .connected → s ≠ .stopping →
      ∀ (st : MState) (c : Bool),
        onNodeStateChanged s = .ignore
          ∧ applyReaction st c (onNodeStateChanged s) = st)
  ∧ (∀ st : MState, st.syncInProgress = true →
      ∀ c : Bool, (connectedReaction c st).startTime = SYNC_CHECK_INTERVAL_MS) := by
  refine ⟨rfl, rfl, ?_, ?_⟩
  · intro s h1 h2 st c
    cases s <;> simp_all [onNodeStateChanged, applyReaction]
  · intro st h c
    simp [connectedReaction, stop, h]

/-- Witness for C8: the `STARTING` state is ignored, and on a live session
the reconnect path invokes `start()` only at the 2000 ms mark. -/
theorem c8_lifecycle_reactions_witness :
    (onNodeStateChanged .starting = .ignore
      ∧ applyReaction liveState true (onNodeStateChanged .starting) = liveState)
  ∧ (connectedReaction true liveState).startTime = SYNC_CHECK_INTERVAL_MS :=
  ⟨c8_lifecycle_reactions.2.2.1 .starting (by decide) (by decide) liveState true,
   c8_lifecycle_reactions.2.2.2 liveState (by decide) true⟩

/-- Claim C9: in the falsy-sync-status branch with a stale block
(age over 60 seconds), the payload handed to the `nodeSyncing` progress
emission of line 158 is the already-consumed `result` variable of the
sync-status query — falsy in that branch — and not anything derived from
the queried block `b`. -/
theorem c9_stale_progress_payload (b : Block) (now : Int)
    (h : now - b.timestamp > 60) :
    syncContinuation (.ok SyncResult.nullResult) (.ok (.block b)) now
      = ([Event.nodeSyncing SyncResult.nullResult], TickAction.scheduleNext) := by
  simp [syncContinuation, h]

/-- Witness for C9 at a block 120 seconds old. -/
theorem c9_stale_progress_payload_witness :
    syncContinuation (.ok SyncResult.nullResult) (.ok (.block ⟨5, 0⟩)) 120
      = ([Event.nodeSyncing SyncResult.nullResult], TickAction.scheduleNext) :=
  c9_stale_progress_payload ⟨5, 0⟩ 120 (by decide)

/-- Claim C10: the promise returned by `start()` always fulfills and
never rejects: every rejection reaching the chain — the not-connected
throw as much as any poll-loop error — is emitted as a single `error`
event by the `.catch`, the `.finally` clears the session state
unconditionally, and the chain's outcome is fulfillment whatever the
inner settlement was. -/
theorem c10_start_promise_always_fulfills (st : MState) (e : Err) :
    (startChain st (Outcome.rejected e)).events = [Event.error e]
  ∧ ∀ inner : Outcome,
      (startChain st inner).outcome = Outcome.fulfilled
        ∧ (startChain st inner).state = clearState st := by
  refine ⟨rfl, fun inner => ?_⟩
  cases inner <;> simp [startChain]

end NodeSync
